import Mathlib

/-
Verification development for the SWSC (Smart Wellness and Study Companion)
ESP32 firmware.  The repository ships several firmware variants; the two
that implement the session phase state machine are embedded here:

* namespace SwscMain  : src/src/swsc_esp32/swsc_esp32.ino (the canonical
  variant: MQTT event handlers, water-alarm array, config parser,
  start/stop/reset control handlers).
* namespace SwscFixed : src/unnamed/part_001 (the variant that owns the
  local break/session timers, the sensor reading and the environment
  classifier).

Hardware side effects (LED colors, buzzer tones, OLED drawing, serial
prints) are omitted from the embedding; MQTT publications are kept as an
explicit output list because the specification talks about them.
-/

/-- Pub models one MQTT publication: topic, payload and the retained flag. -/
structure Pub where
  topic : String
  payload : String
  retained : Bool
deriving DecidableEq, Repr

/-- digitsVal accumulates the decimal digits at the head of a character
list, stopping at the first non-digit, as the C library atol does. -/
def digitsVal (acc : Int) : List Char → Int
  | [] => acc
  | c :: cs => if c.isDigit then digitsVal (acc * 10 + ((c.toNat : Int) - 48)) cs else acc

/-- atoiCore models atol on a character list: skip leading whitespace, read
an optional sign, then digits; 0 when no digit follows. -/
def atoiCore : List Char → Int
  | [] => 0
  | c :: cs =>
    if c.isWhitespace then atoiCore cs
    else if c = '-' then - digitsVal 0 cs
    else if c = '+' then digitsVal 0 cs
    else if c.isDigit then digitsVal 0 (c :: cs)
    else 0

/-- strToInt models Arduino String::toInt, which is atol on the buffer. -/
def strToInt (s : String) : Int := atoiCore s.data

/-- strStarts models Arduino String::startsWith on the character lists of
the two strings. -/
def strStarts (s pre : String) : Bool := pre.data.isPrefixOf s.data

/-- strDropChars models Arduino String::substring(n): the string without
its first n characters. -/
def strDropChars (s : String) (n : Nat) : String := ⟨s.data.drop n⟩

/-- publishStatus models publishing a retained token on swsc/status/system,
as both firmware variants do. -/
def publishStatus (m : String) : Pub := ⟨"swsc/status/system", m, true⟩

namespace SwscMain

/-- Phase is the spec-level phase of the device, derived below from the
boolean flags exactly in the priority order of the main loop of
src/src/swsc_esp32/swsc_esp32.ino. -/
inductive Phase
  | WaitingForConfig
  | Ready
  | Studying
  | OnBreak
  | Stopped
deriving DecidableEq, Repr

/-- MainState is the global mutable state of
src/src/swsc_esp32/swsc_esp32.ino: the cfg_* configuration variables, the
session flags and the water_active alarm array (bool water_active[32]). -/
structure MainState where
  cfg_duration_min : Int
  cfg_break_interval_min : Int
  cfg_break_length_min : Int
  cfg_water_on : Bool
  cfg_received_any : Bool
  cfg_ready : Bool
  session_running : Bool
  in_break : Bool
  session_stopped : Bool
  water_active : Fin 32 → Bool

/-- initState is the boot state: all configuration zeroed, all flags false,
every water alarm inactive. -/
def initState : MainState :=
  { cfg_duration_min := 0
    cfg_break_interval_min := 0
    cfg_break_length_min := 0
    cfg_water_on := false
    cfg_received_any := false
    cfg_ready := false
    session_running := false
    in_break := false
    session_stopped := false
    water_active := fun _ => false }

/-- phase derives the spec Phase from the flags, following the priority
order of the status LED logic in loop(): not configured, then stopped,
then not running, then break flag. -/
def phase (s : MainState) : Phase :=
  if !s.cfg_ready then .WaitingForConfig
  else if s.session_stopped then .Stopped
  else if !s.session_running then .Ready
  else if s.in_break then .OnBreak
  else .Studying

/-- parseConfig embeds parseConfig: dispatch on the config topic, store
payload.toInt (or the lowercase boolean for water_reminder), set
cfg_received_any, then recompute cfg_ready and publish Ready when newly
configured while no session runs. -/
def parseConfig (topic payload : String) (s : MainState) : MainState × List Pub :=
  let s1 :=
    if topic = "swsc/config/duration" then
      { s with cfg_duration_min := strToInt payload, cfg_received_any := true }
    else if topic = "swsc/config/break_interval" then
      { s with cfg_break_interval_min := strToInt payload, cfg_received_any := true }
    else if topic = "swsc/config/break_length" then
      { s with cfg_break_length_min := strToInt payload, cfg_received_any := true }
    else if topic = "swsc/config/water_reminder" then
      { s with
        cfg_water_on :=
          (payload.toLower = "on" || payload.toLower = "true" || payload.toLower = "1")
        cfg_received_any := true }
    else s
  let s2 :=
    { s1 with
      cfg_ready :=
        decide (0 < s1.cfg_duration_min) &&
        decide (0 ≤ s1.cfg_break_interval_min) &&
        decide (0 ≤ s1.cfg_break_length_min) }
  (s2, if s2.cfg_ready && !s2.session_running then [publishStatus "Ready"] else [])

/-- handleAlertBreak embeds handleAlertBreak: payload START sets in_break
and publishes Break; payload END clears in_break and publishes Running;
anything else is ignored.  No timer is consulted. -/
def handleAlertBreak (p : String) (s : MainState) : MainState × List Pub :=
  if p = "START" then ({ s with in_break := true }, [publishStatus "Break"])
  else if p = "END" then ({ s with in_break := false }, [publishStatus "Running"])
  else (s, [])

/-- WaterEvent is the decoded form of an alert/water payload. -/
inductive WaterEvent
  | start (id : Int)
  | stop (id : Int)
  | ping
  | other
deriving DecidableEq, Repr

/-- decodeWater embeds the payload dispatch of handleAlertWater:
START:&lt;id&gt; and STOP:&lt;id&gt; parse the id with toInt after the colon. -/
def decodeWater (p : String) : WaterEvent :=
  if strStarts p "START:" then .start (strToInt (strDropChars p 6))
  else if strStarts p "STOP:" then .stop (strToInt (strDropChars p 5))
  else if strStarts p "PING:" then .ping
  else .other

/-- applyWater embeds the body of handleAlertWater on the water_active
array: the write happens only under the source guard
id >= 0 && id < MAX_WATER_ALARMS. -/
def applyWater : WaterEvent → (Fin 32 → Bool) → (Fin 32 → Bool)
  | .start id, w =>
      if h : 0 ≤ id ∧ id < 32 then
        Function.update w ⟨id.toNat, by omega⟩ true
      else w
  | .stop id, w =>
      if h : 0 ≤ id ∧ id < 32 then
        Function.update w ⟨id.toNat, by omega⟩ false
      else w
  | .ping, w => w
  | .other, w => w

/-- handleAlertWater embeds handleAlertWater: only the water_active array
changes (beeps are actuator effects and carry no state). -/
def handleAlertWater (p : String) (s : MainState) : MainState :=
  { s with water_active := applyWater (decodeWater p) s.water_active }

/-- resetWaterAlarms embeds resetWaterAlarms: all 32 alarms inactive. -/
def resetWaterAlarms : Fin 32 → Bool := fun _ => false

/-- handleControlStart embeds handleControlStart: without cfg_ready it
publishes the waiting status and changes nothing; otherwise it starts the
session, clears the break flag and the alarm set, and publishes Running. -/
def handleControlStart (s : MainState) : MainState × List Pub :=
  if !s.cfg_ready then
    (s, [publishStatus "Waiting for Config"])
  else
    ({ s with
        session_running := true
        session_stopped := false
        in_break := false
        water_active := resetWaterAlarms },
     [publishStatus "Running"])

/-- handleControlStop embeds handleControlStop. -/
def handleControlStop (s : MainState) : MainState × List Pub :=
  ({ s with
      session_running := false
      session_stopped := true
      in_break := false
      water_active := resetWaterAlarms },
   [publishStatus "Stopped"])

/-- handleControlReset embeds handleControlReset: clear the session flags
and alarms, keep every cfg_* field, and publish Ready or the waiting
status according to the preserved cfg_ready. -/
def handleControlReset (s : MainState) : MainState × List Pub :=
  let s2 :=
    { s with
        session_running := false
        session_stopped := false
        in_break := false
        water_active := resetWaterAlarms }
  if s.cfg_ready then (s2, [publishStatus "Ready"])
  else (s2, [publishStatus "Waiting for Config"])

end SwscMain

namespace SwscFixed

/-- FixedState is the SystemState struct of src/unnamed/part_001, extended
with the millis timestamps it reads.  Times are in milliseconds; sensor
floats are modelled as rationals (only compared, never rounded); the
environment label is the String the source stores. -/
structure FixedState where
  active : Bool
  configReady : Bool
  onBreak : Bool
  waterReminderEnabled : Bool
  studyDuration : Int
  breakInterval : Int
  breakLength : Int
  waterInterval : Int
  startTime : Nat
  intervalStartTime : Nat
  lastWaterCheck : Nat
  temperature : Rat
  humidity : Rat
  lightValue : Int
  environmentStatus : String
  currentPhase : String
deriving DecidableEq, Repr

/-- initState is the member-initializer state of the SystemState struct. -/
def initState : FixedState :=
  { active := false
    configReady := false
    onBreak := false
    waterReminderEnabled := true
    studyDuration := 0
    breakInterval := 0
    breakLength := 5
    waterInterval := 30
    startTime := 0
    intervalStartTime := 0
    lastWaterCheck := 0
    temperature := 0
    humidity := 0
    lightValue := 0
    environmentStatus := "Idle"
    currentPhase := "Idle" }

/-- handleConfigDuration embeds the swsc/config/duration branch of
handleMQTTMessage: store payload.toInt and set configReady. -/
def handleConfigDuration (payload : String) (s : FixedState) : FixedState :=
  { s with studyDuration := strToInt payload, configReady := true }

/-- startSystem embeds startSystem: reject with a retained config_error
status when configReady is false or the duration is exactly 0; otherwise
activate, clear the break flag, and restart every clock at now. -/
def startSystem (now : Nat) (s : FixedState) : FixedState × List Pub :=
  if !s.configReady || s.studyDuration == 0 then
    (s, [publishStatus "config_error"])
  else
    ({ s with
        active := true
        onBreak := false
        startTime := now
        intervalStartTime := now
        lastWaterCheck := now
        currentPhase := "Study" },
     [publishStatus "active"])

/-- stopSystem embeds stopSystem: deactivate, clear the break flag, set
the Idle phase and publish stopped. -/
def stopSystem (s : FixedState) : FixedState × List Pub :=
  ({ s with active := false, onBreak := false, currentPhase := "Idle" },
   [publishStatus "stopped"])

/-- toU32 models the C usual arithmetic conversion of a (signed) int to
unsigned long (32 bits) that happens when the source compares an int
configuration field against an unsigned long elapsed time. -/
def toU32 (i : Int) : Nat := (i % 4294967296).toNat

/-- checkTimers embeds checkTimers: when active, compare the whole minutes
elapsed in the current interval against breakInterval (guarded by
breakInterval > 0) or breakLength, flip onBreak, restart the interval
clock and publish the retained break alert. -/
def checkTimers (now : Nat) (s : FixedState) : FixedState × List Pub :=
  if !s.active then (s, [])
  else
    let intervalElapsed : Nat := (now - s.intervalStartTime) / 60000
    if !s.onBreak then
      if 0 < s.breakInterval ∧ toU32 s.breakInterval ≤ intervalElapsed then
        ({ s with onBreak := true, currentPhase := "Break", intervalStartTime := now },
         [⟨"swsc/alert/break", "START", true⟩])
      else (s, [])
    else
      if toU32 s.breakLength ≤ intervalElapsed then
        ({ s with onBreak := false, currentPhase := "Study", intervalStartTime := now },
         [⟨"swsc/alert/break", "END", true⟩])
      else (s, [])

/-- sessionCompleteCheck embeds the completion check at the end of loop():
when the wall-clock minutes since startTime reach studyDuration (guarded
by studyDuration > 0), publish completed and the finished alert, then run
stopSystem. -/
def sessionCompleteCheck (now : Nat) (s : FixedState) : FixedState × List Pub :=
  let elapsedMinutes : Nat := (now - s.startTime) / 60000
  if 0 < s.studyDuration ∧ toU32 s.studyDuration ≤ elapsedMinutes then
    let r := stopSystem s
    (r.1,
     publishStatus "completed" ::
       ⟨"swsc/alert/finished", "Session completed! Great work!", true⟩ :: r.2)
  else (s, [])

/-- loopTimerTick is one pass of the phase-relevant part of loop() at time
now: nothing when inactive, otherwise checkTimers followed by the session
completion check.  Sensor sampling, water reminder, display and the data
publish cadence touch no phase state and are omitted. -/
def loopTimerTick (now : Nat) (s : FixedState) : FixedState × List Pub :=
  if !s.active then (s, [])
  else
    let r1 := checkTimers now s
    let r2 := sessionCompleteCheck now r1.1
    (r2.1, r1.2 ++ r2.2)

/-- runTicks folds loopTimerTick over a list of evaluation instants,
collecting all publications. -/
def runTicks (times : List Nat) (s : FixedState) : FixedState × List Pub :=
  times.foldl (fun acc t =>
    let r := loopTimerTick t acc.1
    (r.1, acc.2 ++ r.2)) (s, [])

/-- minuteTicks n is one loop evaluation at every whole minute from 0 to n
(in milliseconds). -/
def minuteTicks (n : Nat) : List Nat := (List.range (n + 1)).map (· * 60000)

/-- mapAdc models map(ldrRaw, 0, 4095, 0, 1000) for a raw ADC reading in
0..4095: integer scaling to the 0..1000 pseudo-lux range. -/
def mapAdc (raw : Nat) : Int := (raw * 1000 / 4095 : Nat)

/-- readSensors embeds readSensors: temperature and humidity are stored
only when both DHT reads are valid (neither NaN, modelled as none); the
light value is always recomputed from the raw ADC reading. -/
def readSensors (tOpt hOpt : Option Rat) (ldrRaw : Nat) (s : FixedState) : FixedState :=
  let s1 :=
    match tOpt, hOpt with
    | some t, some h => { s with temperature := t, humidity := h }
    | _, _ => s
  { s1 with lightValue := mapAdc ldrRaw }

/-- classifyEnv embeds the threshold cascade of checkEnvironment with the
fixed priority of the source: hot, cold, humid, dry, dark, bright, ideal. -/
def classifyEnv (t h : Rat) (light : Int) : String :=
  if t > 30 then "Too Hot"
  else if t < 20 then "Too Cold"
  else if h > 70 then "Too Humid"
  else if h < 40 then "Too Dry"
  else if light < 200 then "Too Dark"
  else if light > 800 then "Too Bright"
  else "Ideal"

/-- checkEnvironment embeds checkEnvironment: recompute the label from the
stored sensor values and publish the retained environment alert only when
the label changed. -/
def checkEnvironment (s : FixedState) : FixedState × List Pub :=
  let newStatus := classifyEnv s.temperature s.humidity s.lightValue
  let s2 := { s with environmentStatus := newStatus }
  (s2,
   if newStatus ≠ s.environmentStatus then
     [⟨"swsc/alert/environment", newStatus, true⟩]
   else [])

/-- sampleStep is one sensor evaluation of loop(): readSensors followed by
checkEnvironment, exactly the order of the sensor branch of the loop. -/
def sampleStep (tOpt hOpt : Option Rat) (ldrRaw : Nat) (s : FixedState) :
    FixedState × List Pub :=
  checkEnvironment (readSensors tOpt hOpt ldrRaw s)

/-- scenarioState is the state right after a Start at time 0 with the
configuration of the spec scenario: duration 25, break interval 20, break
length 5. -/
def scenarioState : FixedState :=
  (startSystem 0
    { initState with
        configReady := true
        studyDuration := 25
        breakInterval := 20
        breakLength := 5 }).1

end SwscFixed

/-- handleAlertBreak on payload START only sets the break flag and
publishes the Break status. -/
theorem handleAlertBreak_start_eq (s : SwscMain.MainState) :
    SwscMain.handleAlertBreak "START" s =
      ({ s with in_break := true }, [publishStatus "Break"]) := rfl

/-- handleAlertBreak on payload END only clears the break flag and
publishes the Running status. -/
theorem handleAlertBreak_end_eq (s : SwscMain.MainState) :
    SwscMain.handleAlertBreak "END" s =
      ({ s with in_break := false }, [publishStatus "Running"]) := rfl

/-- applyWater is idempotent for every decoded water event. -/
theorem applyWater_idem (e : SwscMain.WaterEvent) (w : Fin 32 → Bool) :
    SwscMain.applyWater e (SwscMain.applyWater e w) = SwscMain.applyWater e w := by
  cases e <;> simp only [SwscMain.applyWater] <;> split <;>
    simp [Function.update_idem]

/-- C1: from any state in the Studying phase, an external break alert with
payload START yields the OnBreak phase, and from any state in the OnBreak
phase, payload END yields Studying; the handler consults no timer, so the
override is unconditional. -/
theorem c1_break_override_authoritative :
    (∀ s : SwscMain.MainState, SwscMain.phase s = SwscMain.Phase.Studying →
        SwscMain.phase (SwscMain.handleAlertBreak "START" s).1 = SwscMain.Phase.OnBreak) ∧
    (∀ s : SwscMain.MainState, SwscMain.phase s = SwscMain.Phase.OnBreak →
        SwscMain.phase (SwscMain.handleAlertBreak "END" s).1 = SwscMain.Phase.Studying) := by
  constructor <;> intro s h <;>
    [rw [handleAlertBreak_start_eq]; rw [handleAlertBreak_end_eq]] <;>
    cases hr : s.cfg_ready <;> cases hst : s.session_stopped <;>
      cases hru : s.session_running <;> cases hb : s.in_break <;>
      simp [SwscMain.phase, hr, hst, hru, hb] at h ⊢

/-- C1 witness: the override applied at a concrete Studying state and a
concrete OnBreak state. -/
theorem c1_break_override_authoritative_witness :
    SwscMain.phase
        (SwscMain.handleAlertBreak "START"
          { SwscMain.initState with cfg_ready := true, session_running := true }).1 =
      SwscMain.Phase.OnBreak ∧
    SwscMain.phase
        (SwscMain.handleAlertBreak "END"
          { SwscMain.initState with
              cfg_ready := true, session_running := true, in_break := true }).1 =
      SwscMain.Phase.Studying :=
  ⟨c1_break_override_authoritative.1 _ (by decide),
   c1_break_override_authoritative.2 _ (by decide)⟩

/-- C10: with breakInterval = 0, the timer-driven Studying to OnBreak
transition never fires: checkTimers leaves the state unchanged and
publishes nothing, for every evaluation time. -/
theorem c10_zero_break_interval_no_breaks :
    ∀ (now : Nat) (s : SwscFixed.FixedState),
      s.onBreak = false → s.breakInterval = 0 →
      SwscFixed.checkTimers now s = (s, []) := by
  intro now s hb hbi
  cases ha : s.active <;> simp [SwscFixed.checkTimers, ha, hb, hbi]

/-- C10 witness: checkTimers at a concrete active state with zero break
interval and an hour elapsed. -/
theorem c10_zero_break_interval_no_breaks_witness :
    SwscFixed.checkTimers 3600000
        { SwscFixed.initState with active := true, studyDuration := 120 } =
      ({ SwscFixed.initState with active := true, studyDuration := 120 }, []) :=
  c10_zero_break_interval_no_breaks 3600000 _ rfl rfl

/-- C9: Stop and Reset preserve all four configuration fields and the
cfg_ready predicate for every prior state; after Reset the derived phase
is Ready or WaitingForConfig according to the preserved cfg_ready, and the
matching status is published. -/
theorem c9_stop_reset_keep_config :
    ∀ s : SwscMain.MainState,
      ((SwscMain.handleControlStop s).1.cfg_duration_min = s.cfg_duration_min ∧
       (SwscMain.handleControlStop s).1.cfg_break_interval_min = s.cfg_break_interval_min ∧
       (SwscMain.handleControlStop s).1.cfg_break_length_min = s.cfg_break_length_min ∧
       (SwscMain.handleControlStop s).1.cfg_water_on = s.cfg_water_on ∧
       (SwscMain.handleControlStop s).1.cfg_ready = s.cfg_ready) ∧
      ((SwscMain.handleControlReset s).1.cfg_duration_min = s.cfg_duration_min ∧
       (SwscMain.handleControlReset s).1.cfg_break_interval_min = s.cfg_break_interval_min ∧
       (SwscMain.handleControlReset s).1.cfg_break_length_min = s.cfg_break_length_min ∧
       (SwscMain.handleControlReset s).1.cfg_water_on = s.cfg_water_on ∧
       (SwscMain.handleControlReset s).1.cfg_ready = s.cfg_ready) ∧
      SwscMain.phase (SwscMain.handleControlReset s).1 =
        (if s.cfg_ready then SwscMain.Phase.Ready else SwscMain.Phase.WaitingForConfig) ∧
      (SwscMain.handleControlReset s).2 =
        [publishStatus (if s.cfg_ready then "Ready" else "Waiting for Config")] := by
  intro s
  cases hc : s.cfg_ready <;>
    simp [SwscMain.handleControlStop, SwscMain.handleControlReset, SwscMain.phase, hc]

/-- C3 counterexample: a negative duration payload makes ready false (the
duration is not positive), yet startSystem accepts the Start command,
activates the session and publishes the active status. -/
theorem c3_negative_duration_starts_counterexample :
    (¬ 0 < (SwscFixed.handleConfigDuration "-5" SwscFixed.initState).studyDuration) ∧
    (SwscFixed.startSystem 0
        (SwscFixed.handleConfigDuration "-5" SwscFixed.initState)).1.active = true ∧
    (SwscFixed.startSystem 0
        (SwscFixed.handleConfigDuration "-5" SwscFixed.initState)).1.currentPhase = "Study" ∧
    (SwscFixed.startSystem 0
        (SwscFixed.handleConfigDuration "-5" SwscFixed.initState)).2 =
      [publishStatus "active"] := by decide

/-- C3 amended: whenever configReady is false or the configured duration
is exactly 0 (the guard the source actually tests), startSystem changes
nothing and publishes the explicit config_error rejection status. -/
theorem c3_start_rejection_amended :
    ∀ (now : Nat) (s : SwscFixed.FixedState),
      s.configReady = false ∨ s.studyDuration = 0 →
      SwscFixed.startSystem now s = (s, [publishStatus "config_error"]) := by
  intro now s h
  rcases h with h | h <;> simp [SwscFixed.startSystem, h]

/-- C3 witness: a Start at the boot state (duration 0, configReady false)
is rejected with config_error and leaves the state untouched. -/
theorem c3_start_rejection_amended_witness :
    SwscFixed.startSystem 7 SwscFixed.initState =
      (SwscFixed.initState, [publishStatus "config_error"]) :=
  c3_start_rejection_amended 7 SwscFixed.initState (Or.inl rfl)

/-- C5: a Start processed with the ready predicate true enters Studying
with every water alarm inactive, the break flag cleared and (in the
variant that owns the session clock) both clocks restarted at the Start
instant, so the elapsed time is 0. -/
theorem c5_start_resets_alarms_and_clock :
    (∀ s : SwscMain.MainState, s.cfg_ready = true →
        (SwscMain.handleControlStart s).1.session_running = true ∧
        (SwscMain.handleControlStart s).1.in_break = false ∧
        (∀ i : Fin 32, (SwscMain.handleControlStart s).1.water_active i = false) ∧
        SwscMain.phase (SwscMain.handleControlStart s).1 = SwscMain.Phase.Studying ∧
        (SwscMain.handleControlStart s).2 = [publishStatus "Running"]) ∧
    (∀ (now : Nat) (s : SwscFixed.FixedState),
        s.configReady = true → 0 < s.studyDuration →
        (SwscFixed.startSystem now s).1.active = true ∧
        (SwscFixed.startSystem now s).1.onBreak = false ∧
        (SwscFixed.startSystem now s).1.startTime = now ∧
        (SwscFixed.startSystem now s).1.intervalStartTime = now ∧
        (now - (SwscFixed.startSystem now s).1.startTime) / 60000 = 0) := by
  constructor
  · intro s h
    simp [SwscMain.handleControlStart, SwscMain.resetWaterAlarms, SwscMain.phase, h]
  · intro now s h1 h2
    have hne : s.studyDuration ≠ 0 := by omega
    simp [SwscFixed.startSystem, h1, hne]

/-- C5 witness: Start applied to a concrete configured Ready state in both
variants. -/
theorem c5_start_resets_alarms_and_clock_witness :
    ((SwscMain.handleControlStart { SwscMain.initState with cfg_ready := true }).1.in_break
        = false) ∧
    ((SwscFixed.startSystem 60000
        { SwscFixed.initState with configReady := true, studyDuration := 25 }).1.startTime
        = 60000) :=
  ⟨(c5_start_resets_alarms_and_clock.1 _ rfl).2.1,
   (c5_start_resets_alarms_and_clock.2 60000 _ rfl (by decide)).2.2.1⟩

/-- C2 counterexample: after the update sequence duration := 25 then
break_interval := -1, the duration is positive but cfg_ready is false, so
a break_interval update alone changed the truth of ready. -/
theorem c2_ready_iff_duration_counterexample :
    (SwscMain.parseConfig "swsc/config/break_interval" "-1"
        (SwscMain.parseConfig "swsc/config/duration" "25" SwscMain.initState).1).1.cfg_ready
      = false ∧
    0 < (SwscMain.parseConfig "swsc/config/break_interval" "-1"
        (SwscMain.parseConfig "swsc/config/duration" "25" SwscMain.initState).1).1.cfg_duration_min := by
  decide

/-- C2 amended: after every SessionConfig update, cfg_ready equals the
conjunction duration > 0 and break_interval >= 0 and break_length >= 0;
in particular, whenever the stored break fields are non-negative, ready
holds exactly when the duration is positive. -/
theorem c2_ready_invariant_amended :
    ∀ (s : SwscMain.MainState) (topic payload : String),
      ((SwscMain.parseConfig topic payload s).1.cfg_ready =
        (decide (0 < (SwscMain.parseConfig topic payload s).1.cfg_duration_min) &&
         decide (0 ≤ (SwscMain.parseConfig topic payload s).1.cfg_break_interval_min) &&
         decide (0 ≤ (SwscMain.parseConfig topic payload s).1.cfg_break_length_min))) ∧
      (0 ≤ (SwscMain.parseConfig topic payload s).1.cfg_break_interval_min →
       0 ≤ (SwscMain.parseConfig topic payload s).1.cfg_break_length_min →
       ((SwscMain.parseConfig topic payload s).1.cfg_ready = true ↔
         0 < (SwscMain.parseConfig topic payload s).1.cfg_duration_min)) := by
  intro s topic payload
  refine ⟨rfl, fun h1 h2 => ?_⟩
  show (decide (0 < (SwscMain.parseConfig topic payload s).1.cfg_duration_min) &&
        decide (0 ≤ (SwscMain.parseConfig topic payload s).1.cfg_break_interval_min) &&
        decide (0 ≤ (SwscMain.parseConfig topic payload s).1.cfg_break_length_min)) = true ↔
      0 < (SwscMain.parseConfig topic payload s).1.cfg_duration_min
  simp [h1, h2]

/-- C2 witness: a duration update of 7 at the boot state yields ready,
with both break fields still 0. -/
theorem c2_ready_invariant_amended_witness :
    0 ≤ (SwscMain.parseConfig "swsc/config/duration" "7" SwscMain.initState).1.cfg_break_interval_min ∧
    0 ≤ (SwscMain.parseConfig "swsc/config/duration" "7" SwscMain.initState).1.cfg_break_length_min ∧
    ((SwscMain.parseConfig "swsc/config/duration" "7" SwscMain.initState).1.cfg_ready = true ↔
      0 < (SwscMain.parseConfig "swsc/config/duration" "7" SwscMain.initState).1.cfg_duration_min) :=
  ⟨by decide, by decide,
   (c2_ready_invariant_amended SwscMain.initState "swsc/config/duration" "7").2
     (by decide) (by decide)⟩

/-- C6: water alarm handling is bounds-safe and idempotent: START on an id
below 32 activates exactly that slot, a duplicate START is idempotent,
STOP deactivates the slot, any id outside the range 0..31 leaves the
alarm set untouched (the guarded write never indexes out of bounds), and
the concrete payloads START:3 (twice) and STOP:99 behave accordingly. -/
theorem c6_water_alarm_bounds_idempotent :
    (∀ (w : Fin 32 → Bool) (n : Nat) (hn : n < 32),
        SwscMain.applyWater (SwscMain.WaterEvent.start n) w ⟨n, hn⟩ = true) ∧
    (∀ (e : SwscMain.WaterEvent) (w : Fin 32 → Bool),
        SwscMain.applyWater e (SwscMain.applyWater e w) = SwscMain.applyWater e w) ∧
    (∀ (w : Fin 32 → Bool) (n : Nat) (hn : n < 32),
        SwscMain.applyWater (SwscMain.WaterEvent.stop n) w ⟨n, hn⟩ = false) ∧
    (∀ (w : Fin 32 → Bool) (id : Int), ¬(0 ≤ id ∧ id < 32) →
        SwscMain.applyWater (SwscMain.WaterEvent.start id) w = w ∧
        SwscMain.applyWater (SwscMain.WaterEvent.stop id) w = w) ∧
    (∀ s : SwscMain.MainState, SwscMain.handleAlertWater "STOP:99" s = s) ∧
    (∀ s : SwscMain.MainState,
        SwscMain.handleAlertWater "START:3" (SwscMain.handleAlertWater "START:3" s) =
          SwscMain.handleAlertWater "START:3" s) := by
  refine ⟨?_, applyWater_idem, ?_, ?_, ?_, ?_⟩
  · intro w n hn
    have hg : (0 : Int) ≤ (n : Int) ∧ (n : Int) < 32 := ⟨Int.natCast_nonneg n, by exact_mod_cast hn⟩
    simp only [SwscMain.applyWater, dif_pos hg]
    have he : (⟨((n : Int)).toNat, by omega⟩ : Fin 32) = ⟨n, hn⟩ := by
      apply Fin.ext
      simp
    rw [he, Function.update_same]
  · intro w n hn
    have hg : (0 : Int) ≤ (n : Int) ∧ (n : Int) < 32 := ⟨Int.natCast_nonneg n, by exact_mod_cast hn⟩
    simp only [SwscMain.applyWater, dif_pos hg]
    have he : (⟨((n : Int)).toNat, by omega⟩ : Fin 32) = ⟨n, hn⟩ := by
      apply Fin.ext
      simp
    rw [he, Function.update_same]
  · intro w id h
    constructor <;> simp only [SwscMain.applyWater, dif_neg h]
  · intro s
    show { s with water_active :=
      SwscMain.applyWater (SwscMain.decodeWater "STOP:99") s.water_active } = s
    rw [(by decide : SwscMain.decodeWater "STOP:99" = SwscMain.WaterEvent.stop 99)]
    simp only [SwscMain.applyWater]
    rw [dif_neg (by decide)]
  · intro s
    simp only [SwscMain.handleAlertWater, applyWater_idem]

/-- C6 witness: the bounded clauses applied at slot 3 of the all-inactive
alarm set. -/
theorem c6_water_alarm_bounds_idempotent_witness :
    SwscMain.applyWater (SwscMain.WaterEvent.start 3) (fun _ => false) ⟨3, by decide⟩ = true ∧
    SwscMain.applyWater (SwscMain.WaterEvent.stop 3) (fun _ => false) ⟨3, by decide⟩ = false ∧
    SwscMain.applyWater (SwscMain.WaterEvent.stop 99) (fun _ => false) = (fun _ => false) :=
  ⟨c6_water_alarm_bounds_idempotent.1 _ 3 (by decide),
   c6_water_alarm_bounds_idempotent.2.2.1 _ 3 (by decide),
   (c6_water_alarm_bounds_idempotent.2.2.2.1 _ 99 (by decide)).2⟩

/-- C4 counterexample: in the spec scenario (duration 25, break interval
20, break length 5, Start at 0, one loop evaluation every minute) the
machine is OnBreak after the minute-20 evaluation, but after the
minute-25 evaluation it is already inactive and the completed status has
been published, so it does not return to Studying until minute 45. -/
theorem c4_completion_time_counterexample :
    (SwscFixed.runTicks (SwscFixed.minuteTicks 20) SwscFixed.scenarioState).1.onBreak = true ∧
    (SwscFixed.runTicks (SwscFixed.minuteTicks 25) SwscFixed.scenarioState).1.active = false ∧
    publishStatus "completed" ∈
      (SwscFixed.runTicks (SwscFixed.minuteTicks 25) SwscFixed.scenarioState).2 := by
  decide

/-- C4 amended: the full timer trace of the scenario: Studying until
minute 19, at minute 20 the local timer moves to OnBreak publishing the
retained break START, still OnBreak at minute 24, and at minute 25 the
break ends and, in the same evaluation, the wall-clock elapsed time
(which counts break time) reaches the 25-minute duration, so the machine
stops and publishes completed, the finished alert and stopped; no
further transition or publication happens through minute 45. -/
theorem c4_schedule_amended :
    SwscFixed.scenarioState.active = true ∧
    SwscFixed.scenarioState.onBreak = false ∧
    (SwscFixed.runTicks (SwscFixed.minuteTicks 19) SwscFixed.scenarioState).1.onBreak = false ∧
    (SwscFixed.runTicks (SwscFixed.minuteTicks 19) SwscFixed.scenarioState).1.active = true ∧
    (SwscFixed.runTicks (SwscFixed.minuteTicks 20) SwscFixed.scenarioState).2 =
      [⟨"swsc/alert/break", "START", true⟩] ∧
    (SwscFixed.runTicks (SwscFixed.minuteTicks 24) SwscFixed.scenarioState).1.onBreak = true ∧
    (SwscFixed.runTicks (SwscFixed.minuteTicks 25) SwscFixed.scenarioState).1.currentPhase
      = "Idle" ∧
    (SwscFixed.runTicks (SwscFixed.minuteTicks 25) SwscFixed.scenarioState).2 =
      [⟨"swsc/alert/break", "START", true⟩,
       ⟨"swsc/alert/break", "END", true⟩,
       publishStatus "completed",
       ⟨"swsc/alert/finished", "Session completed! Great work!", true⟩,
       publishStatus "stopped"] ∧
    (SwscFixed.runTicks (SwscFixed.minuteTicks 45) SwscFixed.scenarioState).2 =
      [⟨"swsc/alert/break", "START", true⟩,
       ⟨"swsc/alert/break", "END", true⟩,
       publishStatus "completed",
       ⟨"swsc/alert/finished", "Session completed! Great work!", true⟩,
       publishStatus "stopped"] := by
  decide

/-- C7: environment notification is edge-triggered: checkEnvironment
publishes exactly when the recomputed label differs from the stored one;
a repeated sample with identical inputs never publishes a second time;
and the scenario 32 degrees then 25 degrees (good humidity and light)
publishes exactly TooHot then Ideal. -/
theorem c7_env_edge_triggered :
    (∀ s : SwscFixed.FixedState,
        (SwscFixed.checkEnvironment s).2 = [] ↔
          SwscFixed.classifyEnv s.temperature s.humidity s.lightValue =
            s.environmentStatus) ∧
    (∀ (a b : Option Rat) (raw : Nat) (s : SwscFixed.FixedState),
        (SwscFixed.sampleStep a b raw (SwscFixed.sampleStep a b raw s).1).2 = []) ∧
    ((SwscFixed.sampleStep (some 32) (some 50) 2048
        { SwscFixed.initState with active := true }).2 =
      [⟨"swsc/alert/environment", "Too Hot", true⟩] ∧
     (SwscFixed.sampleStep (some 25) (some 50) 2048
        (SwscFixed.sampleStep (some 32) (some 50) 2048
          { SwscFixed.initState with active := true }).1).2 =
      [⟨"swsc/alert/environment", "Ideal", true⟩]) := by
  refine ⟨?_, ?_, by decide, by decide⟩
  · intro s
    by_cases h :
        SwscFixed.classifyEnv s.temperature s.humidity s.lightValue =
          s.environmentStatus <;>
      simp [SwscFixed.checkEnvironment, h]
  · intro a b raw s
    rcases a with _ | t <;> rcases b with _ | h <;>
      simp [SwscFixed.sampleStep, SwscFixed.readSensors, SwscFixed.checkEnvironment]

/-- C8 counterexample: starting from a state whose values came from a good
sample (25 degrees, 50 percent, light 500, label Ideal), a sample whose
DHT read fails (both values NaN) but whose light reading is dark still
changes the label to TooDark and publishes an environment event. -/
theorem c8_failed_read_counterexample :
    ((SwscFixed.sampleStep (some 25) (some 50) 2048
        { SwscFixed.initState with active := true }).1.environmentStatus = "Ideal") ∧
    (SwscFixed.sampleStep none none 409
        (SwscFixed.sampleStep (some 25) (some 50) 2048
          { SwscFixed.initState with active := true }).1).2 =
      [⟨"swsc/alert/environment", "Too Dark", true⟩] ∧
    (SwscFixed.sampleStep none none 409
        (SwscFixed.sampleStep (some 25) (some 50) 2048
          { SwscFixed.initState with active := true }).1).1.environmentStatus =
      "Too Dark" := by
  decide

/-- C8 amended: a failed DHT read (NaN temperature or humidity) leaves the
stored temperature and humidity unchanged, but the light value is still
read and stored, so the label is recomputed from the old temperature and
humidity and the new light: an event fires on that sample exactly when
this recomputed label differs from the previous one. -/
theorem c8_failed_read_amended :
    ∀ (s : SwscFixed.FixedState) (a b : Option Rat) (raw : Nat),
      a = none ∨ b = none →
      (SwscFixed.readSensors a b raw s).temperature = s.temperature ∧
      (SwscFixed.readSensors a b raw s).humidity = s.humidity ∧
      ((SwscFixed.sampleStep a b raw s).2 = [] ↔
        SwscFixed.classifyEnv s.temperature s.humidity (SwscFixed.mapAdc raw) =
          s.environmentStatus) ∧
      (SwscFixed.sampleStep a b raw s).1.environmentStatus =
        SwscFixed.classifyEnv s.temperature s.humidity (SwscFixed.mapAdc raw) := by
  intro s a b raw h
  have hread : SwscFixed.readSensors a b raw s =
      { s with lightValue := SwscFixed.mapAdc raw } := by
    rcases h with h | h <;> subst h
    · rfl
    · cases a <;> rfl
  refine ⟨by rw [hread], by rw [hread], ?_, ?_⟩
  · simp only [SwscFixed.sampleStep, hread, SwscFixed.checkEnvironment]
    by_cases hc :
        SwscFixed.classifyEnv s.temperature s.humidity (SwscFixed.mapAdc raw) =
          s.environmentStatus <;>
      simp [hc]
  · simp only [SwscFixed.sampleStep, hread, SwscFixed.checkEnvironment]

/-- C8 witness: a failed read with an unchanged dark light value at the
boot state changes nothing and publishes nothing beyond the first-sample
label transition already recorded. -/
theorem c8_failed_read_amended_witness :
    (SwscFixed.readSensors none none 0 SwscFixed.initState).temperature =
      SwscFixed.initState.temperature ∧
    (SwscFixed.readSensors none none 0 SwscFixed.initState).humidity =
      SwscFixed.initState.humidity ∧
    ((SwscFixed.sampleStep none none 0 SwscFixed.initState).2 = [] ↔
      SwscFixed.classifyEnv SwscFixed.initState.temperature
          SwscFixed.initState.humidity (SwscFixed.mapAdc 0) =
        SwscFixed.initState.environmentStatus) ∧
    (SwscFixed.sampleStep none none 0 SwscFixed.initState).1.environmentStatus =
      SwscFixed.classifyEnv SwscFixed.initState.temperature
        SwscFixed.initState.humidity (SwscFixed.mapAdc 0) :=
  c8_failed_read_amended SwscFixed.initState none none 0 (Or.inl rfl)
